import Mathlib

/-!
Shallow embedding of the `salesforce-client` orchestration pipeline.

Each definition translates one Rust item from the repository sources:

* `SfError`            — `src/error.rs`, enum `SfError` (payloads reduced to the
  data the orchestration logic inspects: status codes as `Nat`, messages as
  `String`).
* `is_retryable`       — `src/retry.rs`, `fn is_retryable`.
* `RetryConfig`        — `src/retry.rs`, `struct RetryConfig`.  `Duration`
  values are modelled as rational numbers of seconds; the `multiplier: f64`
  is likewise a rational (the backoff arithmetic
  `Duration::from_secs_f64(delay.as_secs_f64() * multiplier)` is modelled
  exactly, without float rounding).
* `with_retry`         — `src/retry.rs`, `async fn with_retry`.  The async
  operation becomes a function from the attempt number (1-based, as in the
  Rust `attempt` counter) to an `Except` outcome; the returned `List ℚ`
  records, in order, the durations passed to `tokio::time::sleep`.
-/

/-- `src/error.rs`: enum `SfError`.  Constructor order follows the source. -/
inductive SfError where
  | Network : String → SfError
  | Serialization : String → SfError
  | Api : Nat → String → SfError
  | Auth : String → SfError
  | RateLimit : Option Nat → SfError
  | NotFound : String → String → SfError
  | InvalidQuery : String → SfError
  | Config : String → SfError
  | Cache : String → SfError
  | Timeout : Nat → SfError
deriving DecidableEq

/-- `src/retry.rs` lines 75–108: `fn is_retryable(error: &SfError) -> bool`.
Match arms in source order: `Network`, `RateLimit`, `Timeout`, `Api` with a
transient status, everything else `false`. -/
def is_retryable : SfError → Bool
  | .Network _ => true
  | .RateLimit _ => true
  | .Timeout _ => true
  | .Api status _ =>
      status == 408 || status == 429 || status == 500 ||
      status == 502 || status == 503 || status == 504
  | _ => false

/-- `src/retry.rs`: `struct RetryConfig`.  Durations in seconds as `ℚ`. -/
structure RetryConfig where
  max_retries : Nat
  initial_interval : ℚ
  max_interval : ℚ
  multiplier : ℚ
  max_elapsed_time : Option ℚ
deriving DecidableEq

/-- `src/retry.rs`: `impl Default for RetryConfig` (500 ms, 30 s, ×2, 5 min). -/
def RetryConfig.default_config : RetryConfig :=
  ⟨3, 1 / 2, 30, 2, some 300⟩

/-- `src/retry.rs`: `RetryConfig::no_retry()` — defaults with `max_retries = 0`. -/
def RetryConfig.no_retry : RetryConfig :=
  ⟨0, 1 / 2, 30, 2, some 300⟩

/-- The retry loop of `with_retry` (`src/retry.rs` lines 131–164).
`fuel` is the number of retries still allowed (`max_retries - (attempt - 1)`),
so the source's guard `attempt <= config.max_retries` is `fuel > 0`;
`delay` is the current backoff duration.  The second component collects the
durations slept, in order.  Note the source never consults
`max_elapsed_time` inside the loop. -/
def retryLoop {T : Type} (op : Nat → Except SfError T) (mult maxI : ℚ) :
    Nat → Nat → ℚ → Except SfError T × List ℚ
  | fuel, attempt, delay =>
    match op attempt with
    | Except.ok r => (Except.ok r, [])
    | Except.error e =>
      if is_retryable e then
        match fuel with
        | 0 => (Except.error e, [])
        | Nat.succ fuel' =>
          let rest := retryLoop op mult maxI fuel' (attempt + 1) (min (delay * mult) maxI)
          (rest.1, delay :: rest.2)
      else (Except.error e, [])

/-- `src/retry.rs` lines 118–165: `with_retry`.  A `max_retries = 0` policy
runs the operation once (source lines 123–126); otherwise the loop starts at
attempt 1 with `delay = initial_interval`. -/
def with_retry {T : Type} (cfg : RetryConfig) (op : Nat → Except SfError T) :
    Except SfError T × List ℚ :=
  if cfg.max_retries = 0 then (op 1, [])
  else retryLoop op cfg.multiplier cfg.max_interval cfg.max_retries 1 cfg.initial_interval

/-- The stream of backoff delays generated by the loop's update
`delay = min(delay * multiplier, max_interval)` starting from `d`:
`delayStream mult maxI d k` is the delay slept before attempt `k + 2`
(the `k`-th sleep, 0-indexed). -/
def delayStream (mult maxI : ℚ) : ℚ → Nat → ℚ
  | d, 0 => d
  | d, k + 1 => delayStream mult maxI (min (d * mult) maxI) k

theorem retryLoop_sleeps {T : Type} (op : Nat → Except SfError T) (mult maxI : ℚ) :
    ∀ (fuel attempt : Nat) (d : ℚ) (k : Nat) (x : ℚ),
      (retryLoop op mult maxI fuel attempt d).2.get? k = some x →
      x = delayStream mult maxI d k := by
  intro fuel
  induction fuel with
  | zero =>
    intro attempt d k x h
    rw [retryLoop] at h
    cases hop : op attempt with
    | ok r => rw [hop] at h; simp at h
    | error e =>
      rw [hop] at h
      by_cases hr : is_retryable e <;> simp [hr] at h
  | succ fuel ih =>
    intro attempt d k x h
    rw [retryLoop] at h
    cases hop : op attempt with
    | ok r => rw [hop] at h; simp at h
    | error e =>
      rw [hop] at h
      by_cases hr : is_retryable e
      · simp only [hr, if_true] at h
        cases k with
        | zero => simp at h; simp [delayStream, h.symm]
        | succ j =>
          simp only [List.get?] at h
          exact ih (attempt + 1) (min (d * mult) maxI) j x h
      · simp [hr] at h

/-- Closed form of the delay stream when the starting delay already respects
the cap: iterated clamped doubling equals the clamped power formula. -/
theorem delayStream_closed (mult maxI : ℚ) (hm : 0 ≤ mult) :
    ∀ (k : Nat) (d : ℚ), 0 ≤ d → d ≤ maxI →
      delayStream mult maxI d k = min (d * mult ^ k) maxI := by
  intro k
  induction k with
  | zero =>
    intro d hd0 hdM
    simp [delayStream, pow_zero, mul_one, min_eq_left hdM]
  | succ k ih =>
    intro d hd0 hdM
    have hM0 : 0 ≤ maxI := le_trans hd0 hdM
    have hd'0 : 0 ≤ min (d * mult) maxI := le_min (mul_nonneg hd0 hm) hM0
    have hd'M : min (d * mult) maxI ≤ maxI := min_le_right _ _
    rw [delayStream, ih (min (d * mult) maxI) hd'0 hd'M]
    rcases le_or_lt (d * mult) maxI with hle | hgt
    · rw [min_eq_left hle, pow_succ]
      congr 1
      ring
    · -- the cap engaged immediately; this forces `1 < mult`, hence `1 ≤ mult ^ k`
      have hmult1 : 1 < mult := by
        by_contra hc
        push_neg at hc
        exact absurd (le_trans (mul_le_of_le_one_right hd0 hc) hdM) (not_le.mpr hgt)
      have hpow1 : 1 ≤ mult ^ k := one_le_pow₀ hmult1.le
      have hpk : (0 : ℚ) ≤ mult ^ k := pow_nonneg hm k
      have h1 : maxI ≤ maxI * mult ^ k := le_mul_of_one_le_right hM0 hpow1
      have h2 : maxI ≤ d * mult ^ (k + 1) := by
        calc maxI ≤ maxI * mult ^ k := h1
          _ ≤ d * mult * mult ^ k := mul_le_mul_of_nonneg_right hgt.le hpk
          _ = d * mult ^ (k + 1) := by rw [pow_succ]; ring
      rw [min_eq_right hgt.le, min_eq_right h1, min_eq_right h2]

/-- The retryable classifications exactly as the specification lists them
(Connectivity, RateLimited, and the transient server statuses): the
specification-side predicate used to compare against `is_retryable`. -/
def spec_retryable : SfError → Bool
  | .Network _ => true
  | .RateLimit _ => true
  | .Api status _ =>
      status == 408 || status == 429 || status == 500 ||
      status == 502 || status == 503 || status == 504
  | _ => false

/-- The classification the code actually implements: the specification's list
plus `Timeout`. -/
def amended_retryable : SfError → Bool
  | .Timeout _ => true
  | e => spec_retryable e

/-- C2 counterexample: the code treats `SfError::Timeout` as retryable
(`src/retry.rs` line 84, confirmed by its own unit test
`test_is_retryable`), but `Timeout` is not `Connectivity`, `RateLimited`,
or a transient server status, so the claim's "no other error kind" fails. -/
theorem c2_counterexample :
    is_retryable (SfError.Timeout 30) = true ∧
    spec_retryable (SfError.Timeout 30) = false := by
  exact ⟨rfl, rfl⟩

/-- C2 (amended): the retry engine retries internally exactly when the error
is `Network` (connectivity), `RateLimit`, `Timeout`, or an `Api` error with a
transient status (408, 429, 500, 502, 503, 504); every other error kind is
returned to the caller from the first attempt with no backoff sleep. -/
theorem c2_retry_classification :
    (∀ e, is_retryable e = amended_retryable e) ∧
    ∀ (T : Type) (cfg : RetryConfig) (op : Nat → Except SfError T) (e : SfError),
      op 1 = Except.error e → is_retryable e = false →
      with_retry cfg op = (Except.error e, []) := by
  constructor
  · intro e
    cases e <;> rfl
  · intro T cfg op e hop hr
    unfold with_retry
    by_cases h : cfg.max_retries = 0
    · rw [if_pos h, hop]
    · rw [if_neg h, retryLoop, hop]
      simp [hr]

/-- Witness for C2: a non-retryable `Auth` error surfaces unchanged with no
sleeps, even under the default (3-retry) policy. -/
theorem c2_witness :
    with_retry RetryConfig.default_config
        (fun _ => (Except.error (SfError.Auth "bad") : Except SfError Nat)) =
      (Except.error (SfError.Auth "bad"), []) :=
  c2_retry_classification.2 Nat RetryConfig.default_config _ _ rfl rfl

/-- C4: a `max_retries = 0` policy makes `with_retry` run the operation
exactly once (at attempt 1), record no backoff sleep, and return that single
outcome unchanged (`src/retry.rs` lines 123–126). -/
theorem c4_no_retry_single_attempt {T : Type} (cfg : RetryConfig)
    (op : Nat → Except SfError T) (h : cfg.max_retries = 0) :
    with_retry cfg op = (op 1, []) := by
  unfold with_retry
  rw [if_pos h]

/-- Witness for C4 at the source's own `RetryConfig::no_retry()` policy and a
succeeding operation. -/
theorem c4_witness :
    with_retry RetryConfig.no_retry (fun _ => (Except.ok 42 : Except SfError Nat)) =
      (Except.ok 42, []) :=
  c4_no_retry_single_attempt RetryConfig.no_retry _ rfl

/-- C3: amended backoff formula.  Whenever `with_retry` actually sleeps, the
`k`-th sleep (0-indexed; the sleep after failed attempt `n = k + 1`) equals
`min(initial_interval * multiplier ^ (n - 1), max_interval)` — provided the
policy satisfies `initial_interval ≤ max_interval` (with the nonnegativity
every `Duration` has and a nonnegative multiplier).  Without that proviso the
first sleep is the unclamped `initial_interval` (see `c3_counterexample`). -/
theorem c3_backoff_formula {T : Type} (cfg : RetryConfig)
    (op : Nat → Except SfError T)
    (h0 : 0 ≤ cfg.initial_interval) (h1 : cfg.initial_interval ≤ cfg.max_interval)
    (h2 : 0 ≤ cfg.multiplier) (hr : 0 < cfg.max_retries)
    (n : Nat) (_hn : 1 ≤ n) (x : ℚ)
    (hx : (with_retry cfg op).2.get? (n - 1) = some x) :
    x = min (cfg.initial_interval * cfg.multiplier ^ (n - 1)) cfg.max_interval := by
  unfold with_retry at hx
  rw [if_neg (Nat.pos_iff_ne_zero.mp hr)] at hx
  have hs := retryLoop_sleeps op cfg.multiplier cfg.max_interval
    cfg.max_retries 1 cfg.initial_interval (n - 1) x hx
  rw [hs, delayStream_closed cfg.multiplier cfg.max_interval h2 (n - 1)
    cfg.initial_interval h0 h1]

/-- A 3-retry policy (initial 1 s, cap 4 s, ×2) used to witness C3. -/
def cfg_c3 : RetryConfig := ⟨3, 1, 4, 2, none⟩

/-- An operation that fails every attempt with a transient 503. -/
def op_c3 : Nat → Except SfError Nat := fun _ => Except.error (SfError.Api 503 "")

/-- Witness for C3: under `cfg_c3`, the second sleep really is
`min(1 * 2 ^ 1, 4) = 2`. -/
theorem c3_witness : (2 : ℚ) = min ((1 : ℚ) * 2 ^ (2 - 1)) 4 := by
  have h := c3_backoff_formula cfg_c3 op_c3 (by norm_num [cfg_c3])
    (by norm_num [cfg_c3]) (by norm_num [cfg_c3]) (by norm_num [cfg_c3]) 2
    (by norm_num) 2
    (by norm_num [with_retry, cfg_c3, op_c3, retryLoop, is_retryable, min_def])
  simpa [cfg_c3] using h

/-- A policy whose `initial_interval` (2 s) exceeds its `max_interval` (1 s). -/
def cfg_c3_cex : RetryConfig := ⟨1, 2, 1, 2, none⟩

/-- C3 counterexample: with `initial_interval = 2 > max_interval = 1` the
first sleep is the unclamped 2 s, while the claimed formula
`min(initial * multiplier ^ 0, max)` yields 1 s — the code never clamps the
first sleep (`src/retry.rs` line 129 initialises `delay` before any `min`). -/
theorem c3_counterexample :
    (with_retry cfg_c3_cex op_c3).2.get? 0 = some 2 ∧
    min (cfg_c3_cex.initial_interval * cfg_c3_cex.multiplier ^ 0)
        cfg_c3_cex.max_interval = 1 ∧
    (2 : ℚ) ≠ 1 := by
  refine ⟨?_, ?_, by norm_num⟩
  · norm_num [with_retry, cfg_c3_cex, op_c3, retryLoop, is_retryable, min_def]
  · norm_num [cfg_c3_cex, min_def]

/-!
### Result cache (`src/cache.rs`)

`QueryCache` stores serialized bytes (`Vec<u8>`, modelled `List Nat`) under
string query keys; the `serde_json` serializer/deserializer collaborator is
abstracted as a pair of functions into/out of `Except String` (the
`CachedValue` timestamp wrapper is folded into those codecs).  Moka's
internal TTL/TTI/LRU bookkeeping is not consulted by any claim under
verification and the entry list models only the key → bytes mapping.
-/

/-- `src/cache.rs`: `struct CacheConfig`.  `Duration`s as seconds in `ℚ`. -/
structure CacheConfig where
  max_capacity : Nat
  ttl : ℚ
  tti : Option ℚ
deriving DecidableEq

/-- `src/cache.rs`: `CacheConfig::disabled()` — capacity 0, TTL 0, no TTI. -/
def CacheConfig.disabled : CacheConfig := ⟨0, 0, none⟩

/-- `Duration::as_secs` — whole seconds, truncated (durations are
nonnegative, so truncation and floor agree). -/
def durationAsSecs (d : ℚ) : Int := d.num / (d.den : Int)

/-- `src/cache.rs`: `struct QueryCache` — the backing map plus the `enabled`
flag computed at construction. -/
structure QueryCache where
  entries : List (String × List Nat)
  enabled : Bool
deriving DecidableEq

/-- Association-list lookup standing in for the moka map's `get`. -/
def lookupEntry (entries : List (String × List Nat)) (q : String) : Option (List Nat) :=
  match entries with
  | [] => none
  | (k, v) :: rest => if k = q then some v else lookupEntry rest q

/-- Insert-or-replace standing in for the moka map's `insert`. -/
def insertEntry (entries : List (String × List Nat)) (q : String) (bytes : List Nat) :
    List (String × List Nat) :=
  (q, bytes) :: entries.filter (fun kv => kv.1 ≠ q)

/-- `src/cache.rs` lines 131–153: `QueryCache::new` — the cache starts empty
and is enabled iff `max_capacity > 0 && ttl.as_secs() > 0`. -/
def QueryCache.new (cfg : CacheConfig) : QueryCache :=
  ⟨[], decide (0 < cfg.max_capacity) && decide (0 < durationAsSecs cfg.ttl)⟩

/-- `src/cache.rs` lines 156–181: `QueryCache::get`.  Disabled → `None`;
missing key → `None`; stored bytes that fail to deserialize → `None` (the
`Err` arm of the `serde_json::from_slice` match). -/
def QueryCache.get {V : Type} (deser : List Nat → Except String V)
    (c : QueryCache) (q : String) : Option V :=
  if !c.enabled then none
  else
    match lookupEntry c.entries q with
    | some bytes =>
      match deser bytes with
      | Except.ok v => some v
      | Except.error _ => none
    | none => none

/-- `src/cache.rs` lines 184–206: `QueryCache::set`.  Disabled → `Ok(())`
without touching the map; serialization failure → `Err(SfError::Cache)` with
the map untouched; otherwise insert and `Ok(())`. -/
def QueryCache.set {V : Type} (ser : V → Except String (List Nat))
    (c : QueryCache) (q : String) (v : V) : Except SfError Unit × QueryCache :=
  if !c.enabled then (Except.ok (), c)
  else
    match ser v with
    | Except.ok bytes => (Except.ok (), ⟨insertEntry c.entries q bytes, c.enabled⟩)
    | Except.error e => (Except.error (SfError.Cache e), c)

/-- `src/cache.rs` lines 220–227: `QueryCache::clear` — `invalidate_all`
unless disabled. -/
def QueryCache.clear (c : QueryCache) : QueryCache :=
  if !c.enabled then c else ⟨[], c.enabled⟩

/-- C6: a cache configured with capacity 0 or TTL 0 is constructed disabled,
and on any disabled cache `get` returns `None` for every key while `set` is
a no-op returning success — indistinguishable from no cache being present. -/
theorem c6_disabled_cache (cfg : CacheConfig)
    (h : cfg.max_capacity = 0 ∨ cfg.ttl = 0) :
    (QueryCache.new cfg).enabled = false ∧
    ∀ (V : Type) (deser : List Nat → Except String V)
      (ser : V → Except String (List Nat)) (c : QueryCache),
      c.enabled = false →
      (∀ q, QueryCache.get deser c q = none) ∧
      (∀ q v, QueryCache.set ser c q v = (Except.ok (), c)) := by
  constructor
  · rcases h with h | h
    · simp [QueryCache.new, h]
    · simp [QueryCache.new, durationAsSecs, h]
  · intro V deser ser c hc
    constructor
    · intro q
      simp [QueryCache.get, hc]
    · intro q v
      simp [QueryCache.set, hc]

/-- C10: cache lookup is total over stored bytes — if the bytes held under a
key fail to deserialize, `QueryCache::get` reports a plain miss (`None`)
instead of surfacing an error (`src/cache.rs` lines 166–180, `Err` arm). -/
theorem c10_deser_failure_is_miss {V : Type} (deser : List Nat → Except String V)
    (c : QueryCache) (q : String) (bytes : List Nat) (msg : String)
    (h1 : lookupEntry c.entries q = some bytes)
    (h2 : deser bytes = Except.error msg) :
    QueryCache.get deser c q = none := by
  unfold QueryCache.get
  cases he : c.enabled
  · simp
  · simp [h1, h2]

/-- A one-entry cache holding bytes `[7]` under a query key. -/
def demoCache : QueryCache := ⟨[("SELECT Id FROM Account", [7])], true⟩

/-- A deserializer accepting exactly singleton byte lists. -/
def demoDeser : List Nat → Except String Nat :=
  fun bs => match bs with
  | [n] => Except.ok n
  | _ => Except.error "bad"

/-- A serializer producing singleton byte lists. -/
def demoSer : Nat → Except String (List Nat) := fun n => Except.ok [n]

/-- A deserializer that rejects every byte string (corrupted cache). -/
def badDeser : List Nat → Except String Nat := fun _ => Except.error "corrupt"

/-- Witness for C10: corrupted bytes under a present key yield a miss. -/
theorem c10_witness : QueryCache.get badDeser demoCache "SELECT Id FROM Account" = none :=
  c10_deser_failure_is_miss badDeser demoCache "SELECT Id FROM Account" [7] "corrupt"
    rfl rfl

/-!
### Orchestrator (`src/lib.rs`)

The client methods compose the rate limiter, the retry engine and the query
cache around one network operation.  The network side (HTTP transport plus
`crud.rs` status handling) is the external collaborator; it appears as the
per-attempt outcome function fed to `with_retry`.  `RateLimiter::acquire`
(`src/rate_limit.rs` lines 109–118) returns `Ok(())` on every path — it only
suspends — so the embedding counts acquired permits instead of modelling a
failure case.
-/

/-- `src/crud.rs`: `struct InsertResponse` (error details reduced to
strings). -/
structure InsertResponse where
  id : String
  success : Bool
  errors : List String
deriving DecidableEq

/-- `src/lib.rs` lines 477–485: `SalesforceClient::insert` — rate-limiter
acquire, then the retry-wrapped CRUD call; the query cache is left exactly
as it was, whatever the outcome. -/
def clientInsert (cfg : RetryConfig) (op : Nat → Except SfError InsertResponse)
    (cache : QueryCache) : Except SfError InsertResponse × QueryCache :=
  ((with_retry cfg op).1, cache)

/-- `src/lib.rs` lines 511–524: `SalesforceClient::update` — retry-wrapped
CRUD call; on success `query_cache.clear()` then `Ok(())`; the `?` operator
propagates failures with the cache untouched. -/
def clientUpdate (cfg : RetryConfig) (op : Nat → Except SfError Unit)
    (cache : QueryCache) : Except SfError Unit × QueryCache :=
  match (with_retry cfg op).1 with
  | Except.ok _ => (Except.ok (), QueryCache.clear cache)
  | Except.error e => (Except.error e, cache)

/-- `src/lib.rs` lines 540–553: `SalesforceClient::delete` — same shape as
`update`. -/
def clientDelete (cfg : RetryConfig) (op : Nat → Except SfError Unit)
    (cache : QueryCache) : Except SfError Unit × QueryCache :=
  match (with_retry cfg op).1 with
  | Except.ok _ => (Except.ok (), QueryCache.clear cache)
  | Except.error e => (Except.error e, cache)

/-- `src/lib.rs` lines 580–598: `SalesforceClient::upsert` — retry-wrapped
CRUD call; on success `query_cache.clear()` and return the response. -/
def clientUpsert (cfg : RetryConfig) (op : Nat → Except SfError InsertResponse)
    (cache : QueryCache) : Except SfError InsertResponse × QueryCache :=
  match (with_retry cfg op).1 with
  | Except.ok r => (Except.ok r, QueryCache.clear cache)
  | Except.error e => (Except.error e, cache)

/-- `src/lib.rs` lines 270–299: `SalesforceClient::query`.  Cache hit →
return the cached value with no permit and no network attempt; miss →
acquire one permit, run the retry-wrapped attempt, and on success run
`query_cache.set` (its own failure is discarded by the source's
`if let Ok(()) = ...` pattern) before returning.  The result components are
(outcome, cache after, permits acquired, whether the retry-wrapped network
execution ran). -/
def clientQuery {V : Type} (cfg : RetryConfig)
    (deser : List Nat → Except String V) (ser : V → Except String (List Nat))
    (op : Nat → Except SfError V) (cache : QueryCache) (q : String) :
    Except SfError V × QueryCache × Nat × Bool :=
  match QueryCache.get deser cache q with
  | some v => (Except.ok v, cache, 0, false)
  | none =>
    match (with_retry cfg op).1 with
    | Except.error e => (Except.error e, cache, 1, true)
    | Except.ok v => (Except.ok v, (QueryCache.set ser cache q v).2, 1, true)

/-- A successful insert response used in concrete runs. -/
def okResp : InsertResponse := ⟨"001xx000003DGbX", true, []⟩

/-- C1: code bug.  A successful `insert` leaves the query cache fully intact
— the previously stored key still hits afterwards — while `update`, `delete`
and `upsert` all clear it on success, and the claim (with the spec) requires
`invalidate_all` after every successful write including insert. -/
theorem c1_insert_skips_invalidation :
    (clientInsert RetryConfig.no_retry (fun _ => Except.ok okResp) demoCache).1 =
      Except.ok okResp ∧
    (clientInsert RetryConfig.no_retry (fun _ => Except.ok okResp) demoCache).2 =
      demoCache ∧
    QueryCache.get demoDeser
      (clientInsert RetryConfig.no_retry (fun _ => Except.ok okResp) demoCache).2
      "SELECT Id FROM Account" = some 7 ∧
    (clientUpdate RetryConfig.no_retry (fun _ => Except.ok ()) demoCache).2.entries = [] ∧
    (clientDelete RetryConfig.no_retry (fun _ => Except.ok ()) demoCache).2.entries = [] ∧
    (clientUpsert RetryConfig.no_retry (fun _ => Except.ok okResp) demoCache).2.entries = [] :=
  ⟨rfl, rfl, rfl, rfl, rfl, rfl⟩

/-- C5: the read path.  A cache hit is returned as-is with zero rate-limit
permits and no network execution; a miss acquires one permit and runs the
retry-wrapped attempt, and a successful result is written through
`QueryCache.set` before being returned (a failure propagates with the cache
untouched). -/
theorem c5_read_path {V : Type} (cfg : RetryConfig)
    (deser : List Nat → Except String V) (ser : V → Except String (List Nat))
    (op : Nat → Except SfError V) (cache : QueryCache) (q : String) :
    (∀ v, QueryCache.get deser cache q = some v →
      clientQuery cfg deser ser op cache q = (Except.ok v, cache, 0, false)) ∧
    (QueryCache.get deser cache q = none →
      (∀ v, (with_retry cfg op).1 = Except.ok v →
        clientQuery cfg deser ser op cache q =
          (Except.ok v, (QueryCache.set ser cache q v).2, 1, true)) ∧
      (∀ e, (with_retry cfg op).1 = Except.error e →
        clientQuery cfg deser ser op cache q = (Except.error e, cache, 1, true))) := by
  refine ⟨?_, ?_⟩
  · intro v hv
    simp [clientQuery, hv]
  · intro hmiss
    refine ⟨?_, ?_⟩
    · intro v hv
      simp [clientQuery, hmiss, hv]
    · intro e he
      simp [clientQuery, hmiss, he]

/-- Witness for C5: the demo cache holds the demo query, so `clientQuery`
answers from the cache with no permit and no network run. -/
theorem c5_witness :
    clientQuery RetryConfig.no_retry demoDeser demoSer
        (fun _ => Except.ok 99) demoCache "SELECT Id FROM Account" =
      (Except.ok 7, demoCache, 0, false) :=
  (c5_read_path RetryConfig.no_retry demoDeser demoSer
    (fun _ => Except.ok 99) demoCache "SELECT Id FROM Account").1 7 rfl

/-- Witness for C6 at the source's own `CacheConfig::disabled()`: the cache
is constructed disabled, every lookup misses and `set` is a success no-op. -/
theorem c6_witness :
    (QueryCache.new CacheConfig.disabled).enabled = false ∧
    QueryCache.get demoDeser (QueryCache.new CacheConfig.disabled) "q" = none ∧
    QueryCache.set demoSer (QueryCache.new CacheConfig.disabled) "q" 7 =
      (Except.ok (), QueryCache.new CacheConfig.disabled) := by
  have h := c6_disabled_cache CacheConfig.disabled (Or.inl rfl)
  exact ⟨h.1, (h.2 Nat demoDeser demoSer (QueryCache.new CacheConfig.disabled) h.1).1 "q",
    (h.2 Nat demoDeser demoSer (QueryCache.new CacheConfig.disabled) h.1).2 "q" 7⟩

/-!
### Pagination cursor (`src/pagination.rs`)

`PaginatedQuery::next` issues at most one authenticated request per call; the
HTTP transport + JSON decoding of one page is the collaborator `fetch`.  The
third component of `next`'s result counts the network calls issued by that
call (0 or 1).
-/

/-- `src/pagination.rs`: `struct QueryResponse<T>` (pagination metadata). -/
structure QueryResponse (V : Type) where
  records : List V
  done : Bool
  total_size : Option Int
  next_records_url : Option String

/-- `src/pagination.rs`: `struct PaginatedQuery<T>` — the `reqwest::Client`
handle and the phantom type parameter carry no orchestration state and are
omitted. -/
structure PaginatedQuery where
  base_url : String
  access_token : String
  next_url : Option String
  finished : Bool
deriving DecidableEq

/-- `src/pagination.rs` lines 59–74: `PaginatedQuery::new` — `finished`
starts true exactly when no initial locator was supplied. -/
def PaginatedQuery.new (base_url access_token : String)
    (initial_url : Option String) : PaginatedQuery :=
  ⟨base_url, access_token, initial_url, initial_url.isNone⟩

/-- `src/pagination.rs` lines 84–89: resolve the locator against the
endpoint root (absolute locators pass through). -/
def resolveUrl (base path : String) : String :=
  if path.startsWith "http" then path else base ++ path

/-- `src/pagination.rs` lines 77–127: `PaginatedQuery::next`.  Result is
(outcome, cursor after the call, network calls issued by this call). -/
def PaginatedQuery.next {V : Type}
    (fetch : String → Except SfError (QueryResponse V)) (p : PaginatedQuery) :
    Except SfError (Option (List V)) × PaginatedQuery × Nat :=
  if p.finished then (Except.ok none, p, 0)
  else
    match p.next_url with
    | none => (Except.ok none, ⟨p.base_url, p.access_token, none, true⟩, 0)
    | some path =>
      match fetch (resolveUrl p.base_url path) with
      | Except.error e => (Except.error e, p, 1)
      | Except.ok resp =>
        if resp.done then
          (Except.ok (some resp.records),
           ⟨p.base_url, p.access_token, none, true⟩, 1)
        else
          (Except.ok (some resp.records),
           ⟨p.base_url, p.access_token, resp.next_records_url, p.finished⟩, 1)

/-- `n` successive `next` calls: the list of their outcomes, the final
cursor, and the total number of network calls issued. -/
def nextN {V : Type} (fetch : String → Except SfError (QueryResponse V)) :
    Nat → PaginatedQuery →
    List (Except SfError (Option (List V))) × PaginatedQuery × Nat
  | 0, p => ([], p, 0)
  | Nat.succ n, p =>
    let step := PaginatedQuery.next fetch p
    let rest := nextN fetch n step.2.1
    (step.1 :: rest.1, rest.2.1, step.2.2 + rest.2.2)

/-- C7: once the terminal flag is set, every later `next` call — any number
of them, even with a locator still present — returns `Ok(None)`, issues zero
network calls, and leaves the cursor unchanged (`src/pagination.rs` lines
78–80 return before any request). -/
theorem c7_terminal_idempotent {V : Type}
    (fetch : String → Except SfError (QueryResponse V))
    (p : PaginatedQuery) (h : p.finished = true) (n : Nat) :
    PaginatedQuery.next fetch p = (Except.ok none, p, 0) ∧
    nextN fetch n p = (List.replicate n (Except.ok none), p, 0) := by
  have hstep : PaginatedQuery.next fetch p = (Except.ok none, p, 0) := by
    simp [PaginatedQuery.next, h]
  refine ⟨hstep, ?_⟩
  induction n with
  | zero => simp [nextN]
  | succ n ih =>
    simp [nextN, hstep, ih, List.replicate]

/-- A terminal cursor that still carries a locator. -/
def demoCursor : PaginatedQuery := ⟨"https://base", "tok", some "/next/2", true⟩

/-- A fetch stub: any network call would be observable as an error outcome
and a nonzero call count. -/
def demoFetch : String → Except SfError (QueryResponse Nat) :=
  fun _ => Except.error (SfError.Network "down")

/-- Witness for C7: three repeated calls on a terminal cursor with a locator
present yield three `Ok(None)`s, the unchanged cursor, and zero calls. -/
theorem c7_witness :
    PaginatedQuery.next demoFetch demoCursor = (Except.ok none, demoCursor, 0) ∧
    nextN demoFetch 3 demoCursor =
      (List.replicate 3 (Except.ok none), demoCursor, 0) :=
  c7_terminal_idempotent demoFetch demoCursor rfl 3

/-- C9: a cursor built with no initial locator is terminal from creation:
`finished` is set in the constructor and the first `next` already returns
`Ok(None)` with zero network calls and no state change. -/
theorem c9_no_locator_terminal {V : Type}
    (fetch : String → Except SfError (QueryResponse V)) (b t : String) :
    (PaginatedQuery.new b t none).finished = true ∧
    PaginatedQuery.next fetch (PaginatedQuery.new b t none) =
      (Except.ok none, PaginatedQuery.new b t none, 0) := by
  refine ⟨rfl, ?_⟩
  simp [PaginatedQuery.new, PaginatedQuery.next, Option.isNone]

/-!
### Credential expiry (`src/auth.rs`)

Instants are integers (seconds on the UTC timeline); `Duration::minutes(5)`
is 300 seconds.
-/

/-- `src/auth.rs` lines 68–75: `AccessToken::is_expired` — with no
`expires_at` the token is always valid; otherwise expired once
`now + 5 minutes >= expires_at`. -/
def is_expired (expires_at : Option Int) (now : Int) : Bool :=
  match expires_at with
  | some e => decide (now + 5 * 60 ≥ e)
  | none => false

/-- C8: a credential with no expiry instant is never considered expired; one
with expiry instant `E` is considered expired exactly when
`now + 5 minutes ≥ E`. -/
theorem c8_expiry_rule :
    (∀ now : Int, is_expired none now = false) ∧
    (∀ (now e : Int), is_expired (some e) now = true ↔ now + 5 * 60 ≥ e) := by
  refine ⟨fun _ => rfl, fun now e => ?_⟩
  simp [is_expired]
